import Mathlib

/-!
Verification of the NextGenSandboxHub orchestration layer: partition
planning, checkpoint-driven iteration tracking, stage selection, the
wallclock shutdown sequence, the passed-basins ledger, and the
observation-source proxy.  Each definition is a shallow embedding of one
Python function of the repository; file-system reads are modelled as the
already-parsed contents of the files involved.
-/

namespace Runner

/-- Worker-count computation of `generate_partition_basin_file`
(src/runner.py and src/src/python/runner.py): starting from the configured
processor budget `nproc`, it is lowered to `ncats` when `ncats <= nproc`;
otherwise, when the adaptive flag is set, it becomes
`min (ncats / nproc) 20` (Python `int(ncats/nproc)` on nonnegative ints is
floor division); otherwise the budget is kept. -/
def plan (ncats nproc : Nat) (adaptive : Bool) : Nat :=
  if ncats ≤ nproc then ncats
  else if adaptive then min (ncats / nproc) 20
  else nproc

end Runner

/-- C1: for catchment_count ≥ 1 and processor_budget ≥ 1 the planner returns
the catchment count when it fits in the budget, `min (floor (ncats/nproc)) 20`
in the adaptive overflow case, and the budget otherwise; in particular
plan 5 10 _ = 5, plan 200 10 true = 20, plan 15 10 false = 10. -/
theorem runner_plan_cases (ncats nproc : Nat) (adaptive : Bool)
    (hc : 1 ≤ ncats) (hp : 1 ≤ nproc) :
    (ncats ≤ nproc → Runner.plan ncats nproc adaptive = ncats) ∧
    (nproc < ncats → Runner.plan ncats nproc true = min (ncats / nproc) 20) ∧
    (nproc < ncats → Runner.plan ncats nproc false = nproc) ∧
    Runner.plan 5 10 adaptive = 5 ∧
    Runner.plan 200 10 true = 20 ∧
    Runner.plan 15 10 false = 10 := by
  refine ⟨fun h => ?_, fun h => ?_, fun h => ?_, ?_, ?_, ?_⟩ <;>
    simp [Runner.plan, Nat.not_le.mpr, *] <;> omega

/-- Witness for C1 at ncats = 200, nproc = 10. -/
theorem runner_plan_cases_witness :
    Runner.plan 200 10 true = min (200 / 10) 20 :=
  (runner_plan_cases 200 10 true (by decide) (by decide)).2.1 (by decide)

/-- C5 counterexample: with 200 catchments, a budget of 3 processors and the
adaptive flag set, the planner returns 20, which is outside [1, 3]. -/
theorem runner_plan_budget_counterexample :
    Runner.plan 200 3 true = 20 ∧ ¬ Runner.plan 200 3 true ≤ 3 := by
  decide

/-- C5 (amended): for catchment_count ≥ 1 and processor_budget ≥ 1 the
planned worker count lies in [1, max processor_budget 20] and never exceeds
the catchment count; when the adaptive flag is off it lies in
[1, processor_budget]. -/
theorem runner_plan_bounds (ncats nproc : Nat) (adaptive : Bool)
    (hc : 1 ≤ ncats) (hp : 1 ≤ nproc) :
    1 ≤ Runner.plan ncats nproc adaptive ∧
    Runner.plan ncats nproc adaptive ≤ max nproc 20 ∧
    Runner.plan ncats nproc adaptive ≤ ncats ∧
    (adaptive = false → Runner.plan ncats nproc adaptive ≤ nproc) := by
  have hdivc : ncats / nproc ≤ ncats := Nat.div_le_self ncats nproc
  unfold Runner.plan
  by_cases hle : ncats ≤ nproc
  · rw [if_pos hle]
    exact ⟨hc, by omega, le_refl ncats, fun _ => hle⟩
  · rw [if_neg hle]
    have hdiv1 : 1 ≤ ncats / nproc := (Nat.one_le_div_iff hp).mpr (by omega)
    cases adaptive with
    | false =>
        rw [if_neg Bool.false_ne_true]
        exact ⟨hp, by omega, by omega, fun _ => le_refl nproc⟩
    | true =>
        rw [if_pos rfl]
        exact ⟨by omega, by omega, by omega, fun h => Bool.noConfusion h⟩

/-- Witness for C5 (amended) at ncats = 200, nproc = 3, adaptive = true. -/
theorem runner_plan_bounds_witness :
    1 ≤ Runner.plan 200 3 true ∧
    Runner.plan 200 3 true ≤ max 3 20 ∧
    Runner.plan 200 3 true ≤ 200 :=
  ⟨(runner_plan_bounds 200 3 true (by decide) (by decide)).1,
   (runner_plan_bounds 200 3 true (by decide) (by decide)).2.1,
   (runner_plan_bounds 200 3 true (by decide) (by decide)).2.2.1⟩

namespace Hpc

/-- On-disk evidence that `get_current_iteration` inspects for one gage:
whether the info file `info_<gage>.yml` exists, and, when a
`*_worker/best_params.txt` artifact is found under the recorded output
directory, the first value stored in it.  `best_params_first = none` means
no such artifact was found (it can only be found through the info file). -/
structure BasinArtifacts where
  info_exists : Bool
  best_params_first : Option Int
deriving DecidableEq, Repr

/-- `get_current_iteration` of src/tools/hpc/sandbox_launcher.py: 0 when
the info file is missing, 0 when no best_params.txt is found, otherwise
the first recorded value plus one (the value is the last completed
iteration). -/
def get_current_iteration (b : BasinArtifacts) : Int :=
  if ¬ b.info_exists then 0
  else
    match b.best_params_first with
    | none => 0
    | some v => v + 1

/-- `get_max_iter_for_gage` of src/tools/hpc/sandbox_launcher.py, on the
parsed calibration config: `none` is a missing file, `some none` a file
without a `general.iterations` key, `some (some v)` a file configuring
`v` iterations.  Missing file and missing key both yield
DEFAULT_MAX_ITER = -1. -/
def get_max_iter_for_gage (cfg : Option (Option Int)) : Int :=
  match cfg with
  | none => -1
  | some none => -1
  | some (some v) => v

/-- Calibration-config selection inside `run_experiment` of
src/tools/hpc/sandbox_launcher.py: the restart config is used exactly when
`current_iter > 0`. -/
inductive CalibChoice
  | calibrate
  | restart
deriving DecidableEq, Repr

/-- Config-file choice of hpc `run_experiment`: `calib_config_<gage>.yaml`
unless `current_iter > 0`, in which case `calib_config_<gage>_restart.yaml`. -/
def run_experiment_calib (current_iter : Int) : CalibChoice :=
  if current_iter > 0 then CalibChoice.restart else CalibChoice.calibrate

end Hpc

namespace Launcher

/-- `get_current_iteration` of src/tools/launcher/sandbox_launcher.py: same
artifact lookup as the hpc variant, but the first recorded value is
returned unchanged (the `+ 1` is commented out in this file). -/
def get_current_iteration (b : Hpc.BasinArtifacts) : Int :=
  if ¬ b.info_exists then 0
  else
    match b.best_params_first with
    | none => 0
    | some v => v

/-- `get_max_iter` of src/tools/launcher/sandbox_launcher.py on the parsed
calibration config (same encoding as `Hpc.get_max_iter_for_gage`): a
missing file yields 0; an existing file is read with
`cfg["general"]["iterations"]`, so a missing key raises a KeyError. -/
def get_max_iter (cfg : Option (Option Int)) : Except String Int :=
  match cfg with
  | none => Except.ok 0
  | some none => Except.error "KeyError: iterations"
  | some (some v) => Except.ok v

/-- Config-file choice of launcher `run_experiment`:
`calib_main if current_iter == 0 else calib_restart`. -/
def run_experiment_calib (current_iter : Int) : Hpc.CalibChoice :=
  if current_iter = 0 then Hpc.CalibChoice.calibrate else Hpc.CalibChoice.restart

end Launcher

/-- C2 counterexample: the launcher-tools iteration reader, on an info file
pointing at a best_params.txt whose first value is 3, returns 3, not the
claimed 3 + 1 = 4. -/
theorem get_current_iteration_counterexample :
    Launcher.get_current_iteration ⟨true, some 3⟩ = 3 ∧
    Launcher.get_current_iteration ⟨true, some 3⟩ ≠ 4 := by
  decide

/-- C2 (amended): both iteration readers return 0 when the info file or the
best-parameters artifact is absent; on first recorded value v the hpc
reader returns v + 1 (v = 3 yields 4) while the launcher-tools reader
returns v unchanged (v = 3 yields 3). -/
theorem get_current_iteration_spec :
    (∀ o : Option Int, Hpc.get_current_iteration ⟨false, o⟩ = 0 ∧
      Launcher.get_current_iteration ⟨false, o⟩ = 0) ∧
    Hpc.get_current_iteration ⟨true, none⟩ = 0 ∧
    Launcher.get_current_iteration ⟨true, none⟩ = 0 ∧
    (∀ v : Int, Hpc.get_current_iteration ⟨true, some v⟩ = v + 1 ∧
      Launcher.get_current_iteration ⟨true, some v⟩ = v) ∧
    Hpc.get_current_iteration ⟨true, some 3⟩ = 4 := by
  refine ⟨fun o => ⟨rfl, rfl⟩, rfl, rfl, fun v => ⟨rfl, rfl⟩, rfl⟩

/-- C8 counterexample: the hpc max-iteration reader returns -1, not 0, when
the calibration config file is missing. -/
theorem get_max_iter_counterexample :
    Hpc.get_max_iter_for_gage none = -1 ∧ Hpc.get_max_iter_for_gage none ≠ 0 := by
  decide

/-- C8 (amended): when the calibration config file is missing the
launcher-tools reader returns 0 (not an error) while the hpc reader returns
its DEFAULT_MAX_ITER of -1; when the file exists with a configured
iterations value v, both return v. -/
theorem get_max_iter_spec :
    Launcher.get_max_iter none = Except.ok 0 ∧
    Hpc.get_max_iter_for_gage none = -1 ∧
    (∀ v : Int, Launcher.get_max_iter (some (some v)) = Except.ok v ∧
      Hpc.get_max_iter_for_gage (some (some v)) = v) := by
  exact ⟨rfl, rfl, fun v => ⟨rfl, rfl⟩⟩

/-- C3: in both launchers, whenever the current iteration k is positive the
restart configuration is selected, and the plain calibrate configuration is
selected exactly when k = 0 (for the nonnegative iterations the readers
produce from on-disk state). -/
theorem run_experiment_restart_choice (k : Int) (hk : 0 ≤ k) :
    (0 < k → Hpc.run_experiment_calib k = Hpc.CalibChoice.restart ∧
      Launcher.run_experiment_calib k = Hpc.CalibChoice.restart) ∧
    (Hpc.run_experiment_calib k = Hpc.CalibChoice.calibrate ↔ k = 0) ∧
    (Launcher.run_experiment_calib k = Hpc.CalibChoice.calibrate ↔ k = 0) := by
  have h0 : k = 0 ∨ 0 < k := by omega
  rcases h0 with h | h
  · subst h
    simp [Hpc.run_experiment_calib, Launcher.run_experiment_calib]
  · have hne : ¬ k = 0 := by omega
    simp [Hpc.run_experiment_calib, Launcher.run_experiment_calib, h, hne]

/-- Witness for C3 at k = 5. -/
theorem run_experiment_restart_choice_witness :
    (Hpc.run_experiment_calib 5 = Hpc.CalibChoice.restart ∧
      Launcher.run_experiment_calib 5 = Hpc.CalibChoice.restart) ∧
    (Hpc.run_experiment_calib 5 = Hpc.CalibChoice.calibrate ↔ (5 : Int) = 0) ∧
    (Launcher.run_experiment_calib 5 = Hpc.CalibChoice.calibrate ↔ (5 : Int) = 0) :=
  ⟨(run_experiment_restart_choice 5 (by decide)).1 (by decide),
   (run_experiment_restart_choice 5 (by decide)).2.1,
   (run_experiment_restart_choice 5 (by decide)).2.2⟩

namespace Hpc

/-- Primitive process-control calls issued by the wallclock-shutdown block of
hpc `main` for one still-running job: `proc.wait(timeout=10)`,
`proc.terminate()`, `proc.kill()`, and the final reaping `proc.wait()`. -/
inductive KillAction
  | waitBounded
  | terminate
  | forceKill
  | waitReap
deriving DecidableEq, Repr

/-- The shutdown block of src/tools/hpc/sandbox_launcher.py `main` for one
job still running at the deadline, as the sequence of calls it issues:
`try: proc.wait(timeout=10); proc.terminate()` and, on TimeoutExpired,
`proc.kill(); proc.wait()`.  The branch taken depends on whether the
process exits on its own within the bounded wait. -/
def shutdown_actions (exits_within_wait : Bool) : List KillAction :=
  if exits_within_wait then [KillAction.waitBounded, KillAction.terminate]
  else [KillAction.waitBounded, KillAction.forceKill, KillAction.waitReap]

/-- Job liveness states of the supervisor state machine; a job enters
graceTerminating exactly when a terminate is issued while it is running,
and terminated when a force-kill is issued. -/
inductive JobState
  | running
  | graceTerminating
  | terminated
deriving DecidableEq, Repr

/-- State of a job that never exits on its own, after a prefix of the
issued shutdown calls. -/
def abstract_state (as : List KillAction) : JobState :=
  as.foldl
    (fun s a =>
      match a, s with
      | KillAction.terminate, JobState.running => JobState.graceTerminating
      | KillAction.forceKill, _ => JobState.terminated
      | _, s => s)
    JobState.running

/-- How hpc `run_experiment` dispatches one gage, given ITS OWN `use_slurm`
parameter: a batch-queue submission returning no handle, or a local Popen
whose handle is returned (modelled as `some 0`). -/
inductive DispatchMode
  | slurmQueue
  | localProcess
deriving DecidableEq, Repr

/-- Dispatch of hpc `run_experiment use_slurm`: sbatch with `return None`
when `use_slurm` holds, else a local `subprocess.Popen` handle. -/
def run_experiment_dispatch (use_slurm : Bool) : DispatchMode × Option Nat :=
  if use_slurm then (DispatchMode.slurmQueue, none)
  else (DispatchMode.localProcess, some 0)

/-- Per-gage dispatch performed by hpc `main`: it calls
`run_experiment(gage_id, current_iter)` WITHOUT forwarding the module-level
flag, so `run_experiment` always runs with its default `use_slurm=False`,
whatever the module flag is. -/
def main_job_dispatch (module_use_slurm : Bool) : DispatchMode × Option Nat :=
  run_experiment_dispatch false

/-- Resubmission performed by hpc `main` when gages remain incomplete: it
DOES consult the module-level flag (`sbatch submit_launcher.slurm` vs a
local `os.execvp`). -/
def main_resubmit_dispatch (module_use_slurm : Bool) : DispatchMode :=
  if module_use_slurm then DispatchMode.slurmQueue else DispatchMode.localProcess

/-- One gage as seen by hpc `main`: its configured maximum iteration as
read in the launch loop, its iteration re-read after the control loop, and
whether a validation artifact exists for it (hpc `main` never consults
the latter). -/
structure GageRun where
  gid : String
  maxIter : Int
  final : Int
  has_validation : Bool
deriving DecidableEq, Repr

/-- Value left in the `max_iter` variable in hpc `main` after the launch loop:
the loop body runs `max_iter = get_max_iter_for_gage(gage_id)` for every
gage, so afterwards the variable holds the maximum of the LAST gage. -/
def last_max_iter (gs : List GageRun) : Int :=
  ((gs.map GageRun.maxIter).getLast?).getD 0

/-- The `still_incomplete` list computed by hpc `main` after the control
loop: gages with `final_iter < max_iter`, where `max_iter` is the stale
variable left over from the launch loop; a nonempty result triggers
resubmission of the whole launcher. -/
def still_incomplete (gs : List GageRun) : List GageRun :=
  gs.filter (fun g => decide (g.final < last_max_iter gs))

end Hpc

/-- C4: a job still running at the deadline that does not exit within the
bounded wait is force-killed straight from the running state: the call
sequence the code issues for it is wait-kill-wait, contains no terminate at
all, and the state of the job when the kill is issued is still `running`. -/
theorem shutdown_force_kill_from_running :
    Hpc.shutdown_actions false =
      [Hpc.KillAction.waitBounded, Hpc.KillAction.forceKill, Hpc.KillAction.waitReap] ∧
    Hpc.KillAction.terminate ∉ Hpc.shutdown_actions false ∧
    Hpc.abstract_state (List.take 1 (Hpc.shutdown_actions false)) =
      Hpc.JobState.running := by
  decide

/-- C9: with the module-level queue flag set, hpc `main` still spawns every
job of every gage as a local child process with a retained handle (the flag is not
forwarded to `run_experiment`), while the resubmission consults the flag
and goes to the batch queue — the two dispatch modes are mixed within one
run. -/
theorem dispatch_modes_mixed :
    (Hpc.main_job_dispatch true).1 = Hpc.DispatchMode.localProcess ∧
    (Hpc.main_job_dispatch true).2 = some 0 ∧
    Hpc.main_resubmit_dispatch true = Hpc.DispatchMode.slurmQueue ∧
    (Hpc.main_job_dispatch true).1 ≠ Hpc.main_resubmit_dispatch true := by
  decide

/-- C7: a gage that has a validation artifact and has reached its own
configured maximum (final = maxIter = 5) is nevertheless placed in hpc
still_incomplete set of hpc `main` — and so is part of the workload that
triggers resubmission — because the comparison uses the stale `max_iter`
of the last-processed gage (here 100) and never consults the validation
artifact. -/
theorem validated_gage_still_resubmitted :
    (Hpc.GageRun.mk "g1" 5 5 true).has_validation = true ∧
    (Hpc.GageRun.mk "g1" 5 5 true).maxIter ≤ (Hpc.GageRun.mk "g1" 5 5 true).final ∧
    Hpc.GageRun.mk "g1" 5 5 true ∈
      Hpc.still_incomplete [Hpc.GageRun.mk "g1" 5 5 true, Hpc.GageRun.mk "g2" 100 0 false] := by
  decide

namespace Driver

/-- One data row of the basins_passed.csv ledger written by `Driver.main`
(src/src/python/driver.py): a gage id and its number of divides. -/
structure LedgerRow where
  gage_id : String
  num_divides : Nat
deriving DecidableEq, Repr

/-- The `existing_gages` set `Driver.main` reads from the ledger file: the
gage ids of the rows already present (empty when the file is absent or
empty). -/
def existing_gages (ledger : List LedgerRow) : List String :=
  ledger.map LedgerRow.gage_id

/-- The recording step of `Driver.main` with `gage_ids` set: `new_gages`
keeps the produced entries whose gage id is not among `existing_gages`,
and the file is opened in append mode (create when absent) and the kept
rows are appended after the existing ones. -/
def record_passed (ledger : List LedgerRow) (entries : List LedgerRow) : List LedgerRow :=
  ledger ++ entries.filter (fun e => !(existing_gages ledger).contains e.gage_id)

end Driver

/-- C6 counterexample: recording the batch
[("g1", 3), ("g1", 5)] twice into an empty ledger leaves TWO rows with
gage id "g1", not one: within one batch nothing filters a second entry
carrying an id that is new to the file. -/
theorem record_passed_counterexample :
    (Driver.record_passed
        (Driver.record_passed [] [Driver.LedgerRow.mk "g1" 3, Driver.LedgerRow.mk "g1" 5])
        [Driver.LedgerRow.mk "g1" 3, Driver.LedgerRow.mk "g1" 5]).countP
      (fun r => r.gage_id == "g1") = 2 ∧
    ¬ (Driver.record_passed
        (Driver.record_passed [] [Driver.LedgerRow.mk "g1" 3, Driver.LedgerRow.mk "g1" 5])
        [Driver.LedgerRow.mk "g1" 3, Driver.LedgerRow.mk "g1" 5]).countP
      (fun r => r.gage_id == "g1") = 1 := by
  decide

/-- C6 (amended): starting from a ledger with at most one row per gage id
and a batch of entries with pairwise distinct gage ids, recording the batch
and then recording it again changes nothing the second time, leaves at most
one row per gage id, and preserves the existing rows as a prefix (entries
whose id is already present are never re-appended). -/
theorem record_passed_idempotent (L E : List Driver.LedgerRow)
    (hL : (Driver.existing_gages L).Nodup)
    (hE : (E.map Driver.LedgerRow.gage_id).Nodup) :
    Driver.record_passed (Driver.record_passed L E) E = Driver.record_passed L E ∧
    (Driver.existing_gages (Driver.record_passed L E)).Nodup ∧
    L <+: Driver.record_passed L E := by
  refine ⟨?_, ?_, List.prefix_append L _⟩
  · have hnil : E.filter (fun e =>
        !(Driver.existing_gages (Driver.record_passed L E)).contains e.gage_id) = [] := by
      rw [List.filter_eq_nil_iff]
      intro e he
      simp only [Driver.existing_gages, Driver.record_passed, List.elem_eq_mem,
        Bool.not_eq_eq_eq_not, Bool.not_true, decide_eq_false_iff_not, Decidable.not_not,
        List.map_append, List.mem_append]
      by_cases hin : e.gage_id ∈ L.map Driver.LedgerRow.gage_id
      · exact Or.inl hin
      · right
        refine List.mem_map.mpr ⟨e, List.mem_filter.mpr ⟨he, ?_⟩, rfl⟩
        simp only [Driver.existing_gages, List.elem_eq_mem, Bool.not_eq_eq_eq_not,
          Bool.not_true, decide_eq_false_iff_not]
        exact hin
    show Driver.record_passed L E ++ E.filter (fun e =>
        !(Driver.existing_gages (Driver.record_passed L E)).contains e.gage_id) =
      Driver.record_passed L E
    rw [hnil, List.append_nil]
  · unfold Driver.existing_gages Driver.record_passed
    rw [List.map_append]
    refine List.Nodup.append hL ?_ ?_
    · exact ((List.filter_sublist E).map Driver.LedgerRow.gage_id).nodup hE
    · intro a haL haF
      rcases List.mem_map.mp haF with ⟨e, heF, rfl⟩
      rcases List.mem_filter.mp heF with ⟨heE, hok⟩
      simp only [Driver.existing_gages, List.elem_eq_mem, Bool.not_eq_eq_eq_not,
        Bool.not_true, decide_eq_false_iff_not] at hok
      exact hok haL

/-- Witness for C6 (amended): ledger [("a", 1)], batch
[("a", 1), ("b", 2)]. -/
theorem record_passed_idempotent_witness :
    Driver.record_passed
        (Driver.record_passed [Driver.LedgerRow.mk "a" 1]
          [Driver.LedgerRow.mk "a" 1, Driver.LedgerRow.mk "b" 2])
        [Driver.LedgerRow.mk "a" 1, Driver.LedgerRow.mk "b" 2] =
      Driver.record_passed [Driver.LedgerRow.mk "a" 1]
        [Driver.LedgerRow.mk "a" 1, Driver.LedgerRow.mk "b" 2] ∧
    (Driver.existing_gages
        (Driver.record_passed [Driver.LedgerRow.mk "a" 1]
          [Driver.LedgerRow.mk "a" 1, Driver.LedgerRow.mk "b" 2])).Nodup ∧
    [Driver.LedgerRow.mk "a" 1] <+:
      Driver.record_passed [Driver.LedgerRow.mk "a" 1]
        [Driver.LedgerRow.mk "a" 1, Driver.LedgerRow.mk "b" 2] :=
  record_passed_idempotent [Driver.LedgerRow.mk "a" 1]
    [Driver.LedgerRow.mk "a" 1, Driver.LedgerRow.mk "b" 2]
    (by decide) (by decide)

namespace Plugins

/-- The `Proxy` of src/extern/ngen_cal_plugins/src/read_obs_plugin.py:
its only instance attribute is `_proxy_obj`, the wrapped object. -/
structure Proxy (α : Type) where
  proxy_obj : α
deriving DecidableEq, Repr

/-- `Proxy.set_proxy`: overwrites `_proxy_obj` with the new object. -/
def Proxy.set_proxy {α : Type} (p : Proxy α) (obj : α) : Proxy α :=
  { p with proxy_obj := obj }

/-- `Proxy.__getattribute__`: a name not in ("_proxy_obj", "set_proxy") is
looked up with `getattr` on the wrapped object; the two own names fall
through to the default object lookup on the proxy itself (modelled by
`own`).  `getattr` is the ambient attribute function of the wrapped
values, producing attribute values in V. -/
def Proxy.getattribute {α V : Type} (getattr : α → String → V)
    (own : Proxy α → String → V) (p : Proxy α) (name : String) : V :=
  if !(["_proxy_obj", "set_proxy"].contains name) then getattr p.proxy_obj name
  else own p name

end Plugins

/-- C10: for every attribute name n other than "_proxy_obj" and
"set_proxy", reading n on Proxy(x) yields exactly attribute n of x; after
p.set_proxy(y) every such read forwards to y whatever p wrapped before;
and the proxy carries no observable state beyond the wrapped object
(set_proxy yields the proxy of y regardless of p). -/
theorem proxy_forwards_attributes {α V : Type} (getattr : α → String → V)
    (own : Plugins.Proxy α → String → V) (x y : α) (p : Plugins.Proxy α)
    (n : String) (h1 : n ≠ "_proxy_obj") (h2 : n ≠ "set_proxy") :
    Plugins.Proxy.getattribute getattr own (Plugins.Proxy.mk x) n = getattr x n ∧
    Plugins.Proxy.getattribute getattr own (p.set_proxy y) n = getattr y n ∧
    p.set_proxy y = Plugins.Proxy.mk y := by
  have hc : (["_proxy_obj", "set_proxy"].contains n) = false := by
    simp only [List.contains_cons, List.contains_nil, Bool.or_false, Bool.or_eq_false_iff,
      beq_eq_false_iff_ne, ne_eq]
    exact ⟨fun h => h1 (by rw [h]), fun h => h2 (by rw [h])⟩
  unfold Plugins.Proxy.getattribute Plugins.Proxy.set_proxy
  rw [hc]
  exact ⟨rfl, rfl, rfl⟩

/-- Witness for C10 at a concrete wrapped value and attribute name. -/
theorem proxy_forwards_attributes_witness :
    Plugins.Proxy.getattribute (fun (a : Nat) (s : String) => a + s.length)
        (fun _ _ => 0) (Plugins.Proxy.mk 1) "values" = (fun (a : Nat) (s : String) => a + s.length) 1 "values" ∧
    Plugins.Proxy.getattribute (fun (a : Nat) (s : String) => a + s.length)
        (fun _ _ => 0) ((Plugins.Proxy.mk 7).set_proxy 2) "values" = (fun (a : Nat) (s : String) => a + s.length) 2 "values" ∧
    (Plugins.Proxy.mk 7).set_proxy 2 = Plugins.Proxy.mk 2 :=
  proxy_forwards_attributes (fun a s => a + s.length) (fun _ _ => 0) 1 2
    (Plugins.Proxy.mk 7) "values" (by decide) (by decide)
